import Mathlib

/-!
Shallow embedding of `aws_saml_auth/configuration.py` (class `Configuration`).

Modelling conventions:
- Python `None` / absent values become `Option`.
- Timestamps (`datetime` with UTC tz) become `Int` (seconds on a linear clock);
  the wall clock `datetime.now(tz.UTC)` is passed in explicitly as `now`.
- The SAML blob (Python `bytes`) becomes `List Nat`.
- Python dynamic typing, where `raise_if_invalid` inspects `__class__`,
  becomes the inductive `PyVal` of runtime values.
- The two INI files handled through `configparser.RawConfigParser` become
  association lists of sections (section name to key/value string pairs);
  `RawConfigParser.write` stringifies stored raw values with `str()`, so the
  on-disk value encoding is modelled by the `pyStr*` printers and the
  read-side parsers `parseBool` (configparser `getboolean`) / `parseInt`
  (Python `int()`, sign and digits).
- `assert` statements and `ValueError` become `Except String`.
- File-system and lock effects of `write` are modelled as an event trace plus
  a record of which files exist.
-/

namespace ASA

/-- A Python runtime value, as far as `configuration.py` distinguishes them:
`__class__ is bool / is int / is str`, and `is None` checks. -/
inductive PyVal where
  | vbool : Bool → PyVal
  | vint : Int → PyVal
  | vstr : String → PyVal
  | vnone : PyVal
deriving DecidableEq, Repr

/-- The printed name of a value's Python class (`__class__`). -/
def PyVal.className : PyVal → String
  | .vbool _ => "bool"
  | .vint _ => "int"
  | .vstr _ => "str"
  | .vnone => "NoneType"

/-- `v.__class__ is bool` -/
def PyVal.isBool : PyVal → Bool
  | .vbool _ => true
  | _ => false

/-- `v.__class__ is int` (Python `bool` is a subclass of `int`, but
`__class__ is int` is still `False` on a `bool`, matching the constructors). -/
def PyVal.isInt : PyVal → Bool
  | .vint _ => true
  | _ => false

/-- `v.__class__ is str` -/
def PyVal.isStr : PyVal → Bool
  | .vstr _ => true
  | _ => false

/-- `v is None` -/
def PyVal.isNoneV : PyVal → Bool
  | .vnone => true
  | _ => false

/-- The token-cache record
`{AccessKeyId, SecretAccessKey, SessionToken, Expiration}` read from the
credentials file; any entry may be `None`. -/
structure TokenRecord where
  AccessKeyId : Option String
  SecretAccessKey : Option String
  SessionToken : Option String
  Expiration : Option Int
deriving DecidableEq, Repr

/-- The body of the `token_cache` property (configuration.py lines 107-119):
if the stored record is present but its `Expiration` is `None`, or
`Expiration <= datetime.now(tz.UTC)`, or `AccessKeyId` is `None`, or
`SecretAccessKey` is `None`, the field is reset to `None`; the (possibly
cleared) field is returned. The result is the pair
(new value of `self.__token_cache`, returned value); in the source both are
the same field after the conditional clear. -/
def token_cache (now : Int) (cache : Option TokenRecord) :
    Option TokenRecord × Option TokenRecord :=
  match cache with
  | none => (none, none)
  | some t =>
      if (match t.Expiration with
          | none => true
          | some e => decide (e ≤ now) || t.AccessKeyId.isNone
              || t.SecretAccessKey.isNone) then
        (none, none)
      else (some t, some t)

/-- Modelled from the spec: `amazon.Amazon.is_valid_saml_assertion` lives in
`amazon.py`, which is not part of the given sources. Per the spec an absent
blob is invalid, and a present blob is checked by structural/XML
well-formedness rules that are an external collaborator concern; that content
check is therefore taken as a parameter. -/
def is_valid_saml_assertion (contentValid : List Nat → Bool) :
    Option (List Nat) → Bool
  | none => false
  | some b => contentValid b

/-- The body of the `saml_cache` property (configuration.py lines 94-100):
if `is_valid_saml_assertion` rejects the stored blob, the field is reset to
`None`; the (possibly cleared) field is returned. Result is the pair
(new value of `self.__saml_cache`, returned value). -/
def saml_cache (contentValid : List Nat → Bool) (cache : Option (List Nat)) :
    Option (List Nat) × Option (List Nat) :=
  if is_valid_saml_assertion contentValid cache then (cache, cache)
  else (none, none)

/-- Python `str.lower()`, restricted to the per-character (ASCII) lowering
that the comparisons in this module rely on (`"default"`, the configparser
boolean tokens). -/
def pyLower (s : String) : String := ⟨s.data.map Char.toLower⟩

/-- `Configuration.config_profile` (configuration.py lines 48-53): the
config-file section name for a profile. -/
def config_profile (profile : String) : String :=
  if pyLower profile = "default" then profile
  else "profile " ++ profile

/-- Python `pattern in s` (substring containment): for a nonempty pattern,
`s.splitOn pattern` has more than one piece exactly when the pattern occurs. -/
def strContains (s pattern : String) : Bool :=
  (s.splitOn pattern).length != 1

/-- The dynamically-typed view of the mutable `Configuration` attributes that
`raise_if_invalid` inspects; each holds an arbitrary Python runtime value. -/
structure ConfigDyn where
  ask_role : PyVal
  duration : PyVal
  auto_duration : PyVal
  profile : PyVal
  region : PyVal
  login_url : PyVal
  role_arn : PyVal
  quiet : PyVal
  account : PyVal
  port : PyVal
deriving DecidableEq, Repr

/-- One `assert cond, msg` statement. -/
def assertCheck (cond : Bool) (msg : String) : Except String Unit :=
  if cond then .ok () else .error msg

/-- Sequencing of assert statements: the next one runs only when the
previous ones all passed, so the first violated assert is the failure. -/
def thenCheck (a b : Except String Unit) : Except String Unit :=
  match a with
  | .ok _ => b
  | .error e => .error e

/-- The three duration asserts of `raise_if_invalid`
(configuration.py lines 132-145), in source order: class is `int`, then
`>= 900`, then `<= max_duration` (43200). -/
def checkDuration (v : PyVal) : Except String Unit :=
  match v with
  | .vint d =>
      if ¬ (900 ≤ d) then
        .error ("Expected duration to be greater than or equal to 900. Got "
          ++ toString d ++ ".")
      else if ¬ (d ≤ 43200) then
        .error ("Expected duration to be less than or equal to max_duration (43200). Got "
          ++ toString d ++ ".")
      else .ok ()
  | w => .error ("Expected duration to be an integer. Got " ++ w.className ++ ".")

/-- The `role_arn` asserts of `raise_if_invalid`
(configuration.py lines 170-181): skipped when `None`; otherwise class is
`str` and the value contains one of the two ARN markers. -/
def checkRoleArn (v : PyVal) : Except String Unit :=
  match v with
  | .vnone => .ok ()
  | .vstr s =>
      if strContains s "arn:aws:iam::" || strContains s "arn:aws-us-gov:iam::" then
        .ok ()
      else
        .error ("Expected role_arn to contain arn:aws:iam::. Got " ++ s ++ ".")
  | w => .error ("Expected role_arn to be None or a string. Got "
      ++ w.className ++ ".")

/-- `Configuration.raise_if_invalid` (configuration.py lines 126-196): runs
the asserts in source order and fails with the first violated assert's
message. It is a pure check: no attribute is assigned anywhere in the source
body, which the embedding reflects by returning only `Except String Unit`. -/
def raise_if_invalid (c : ConfigDyn) : Except String Unit :=
  thenCheck (assertCheck c.ask_role.isBool
    ("Expected ask_role to be a boolean. Got " ++ c.ask_role.className ++ ".")) (
  thenCheck (checkDuration c.duration) (
  thenCheck (assertCheck c.auto_duration.isBool
    ("Expected auto_duration to be a boolean. Got " ++ c.auto_duration.className ++ ".")) (
  thenCheck (assertCheck c.profile.isStr
    ("Expected profile to be a string. Got " ++ c.profile.className ++ ".")) (
  thenCheck (assertCheck c.region.isStr
    ("Expected region to be a string. Got " ++ c.region.className ++ ".")) (
  thenCheck (assertCheck (!c.login_url.isNoneV)
    "Expected login_url to be set to non-None value.") (
  thenCheck (checkRoleArn c.role_arn) (
  thenCheck (assertCheck c.quiet.isBool
    ("Expected quiet to be a boolean. Got " ++ c.quiet.className ++ ".")) (
  thenCheck (assertCheck c.account.isStr
    ("Expected account to be string. Got " ++ c.account.className)) (
  assertCheck c.port.isInt
    ("Expected port to be an integer. Got " ++ c.port.className ++ "."))))))))))

/-! ### The configparser section store

`RawConfigParser` state: an ordered mapping section name -> (option -> value).
Option keys pass through `optionxform` (lowercasing); section names do not.
Values on disk are the `str()` images of whatever raw value was stored. -/

/-- One section: ordered key/value pairs (keys already `optionxform`-ed). -/
abbrev IniSection := List (String × String)

/-- A whole parsed file: ordered (section name, section) pairs. -/
abbrev IniFile := List (String × IniSection)

/-- configparser `optionxform`: option keys are lowercased. -/
def optionxform (k : String) : String := pyLower k

/-- Lookup of a key inside one section. -/
def secGet : IniSection → String → Option String
  | [], _ => none
  | (k', v) :: rest, k => if k' = k then some v else secGet rest k

/-- Overwrite-or-append of a key inside one section. -/
def secSet : IniSection → String → String → IniSection
  | [], k, v => [(k, v)]
  | (k', v') :: rest, k, v =>
      if k' = k then (k, v) :: rest else (k', v') :: secSet rest k v

/-- `parser.has_section(s)` -/
def hasSection : IniFile → String → Bool
  | [], _ => false
  | (s', _) :: rest, s => s' = s || hasSection rest s

/-- `parser[s].get(k, None)` (raw read, no parsing). -/
def getOpt : IniFile → String → String → Option String
  | [], _, _ => none
  | (s', sec) :: rest, s, k =>
      if s' = s then secGet sec (optionxform k) else getOpt rest s k

/-- `parser.add_section(s)` guarded by `has_section` as in the source. -/
def addSectionIfMissing (f : IniFile) (s : String) : IniFile :=
  if hasSection f s then f else f ++ [(s, [])]

/-- `parser.set(s, k, v)`: updates the named section (the callers in the
source always `add_section` first, so a missing section never happens). -/
def setOpt : IniFile → String → String → String → IniFile
  | [], _, _, _ => []
  | (s', sec) :: rest, s, k, v =>
      if s' = s then (s', secSet sec (optionxform k) v) :: rest
      else (s', sec) :: setOpt rest s k v

/-! ### The on-disk value encoding

`RawConfigParser.set` stores the raw Python value; `RawConfigParser.write`
emits `str(value)`. The printers below model `str()` on the value classes the
source stores; the parsers model configparser `getboolean` and Python
`int()` on the read path. -/

/-- The decimal digit character for `d < 10`. -/
def digitChar (d : Nat) : Char := Char.ofNat (48 + d)

/-- The decimal digits of a positive number, least significant first. -/
def natDigitsRev (n : Nat) : List Nat :=
  if n = 0 then []
  else n % 10 :: natDigitsRev (n / 10)
decreasing_by exact Nat.div_lt_self (Nat.pos_of_ne_zero (by assumption)) (by decide)

/-- Python `str()` on a nonnegative integer. -/
def natToString (n : Nat) : String :=
  if n = 0 then "0" else ⟨(natDigitsRev n).reverse.map digitChar⟩

/-- Python `str()` on an integer (what `RawConfigParser.write` emits for the
raw `int` stored by `config_parser.set(profile, "asa.duration", ...)`). -/
def intToString (n : Int) : String :=
  if n < 0 then "-" ++ natToString n.natAbs else natToString n.natAbs

/-- Python `str()` on a boolean. -/
def boolToString (b : Bool) : String := if b then "True" else "False"

/-- Python `str()` on a string-or-None attribute. -/
def strOrNone : Option String → String
  | none => "None"
  | some s => s

/-- configparser `getboolean` value table (`BOOLEAN_STATES`), applied to the
lowercased value; anything else raises `ValueError`. -/
def parseBool (s : String) : Option Bool :=
  let l := pyLower s
  if l = "1" || l = "yes" || l = "true" || l = "on" then some true
  else if l = "0" || l = "no" || l = "false" || l = "off" then some false
  else none

/-- Digit accumulator for `parseInt`. -/
def parseDigits : List Char → Nat → Option Nat
  | [], acc => some acc
  | c :: cs, acc =>
      if 48 ≤ c.toNat ∧ c.toNat ≤ 57 then
        parseDigits cs (acc * 10 + (c.toNat - 48))
      else none

/-- A nonempty all-digit string as a number. -/
def parseNat : List Char → Option Nat
  | [] => none
  | cs => parseDigits cs 0

/-- Python `int(s)` as used by configparser `getint`: an optional sign
followed by decimal digits (whitespace/underscore tolerance of `int()` left
out; `getint` raises `ValueError` on anything unparseable, modelled as
`none`). -/
def parseInt (s : String) : Option Int :=
  match s.data with
  | [] => none
  | c :: cs =>
      if c = '-' then
        match parseNat cs with
        | some n => some (-(n : Int))
        | none => none
      else if c = '+' then
        match parseNat cs with
        | some n => some ((n : Int))
        | none => none
      else
        match parseNat (c :: cs) with
        | some n => some ((n : Int))
        | none => none

/-! ### The typed Configuration aggregate

`read` and `write` only ever run on a well-typed object (the constructor's
defaults together with values parsed from the files), so they are embedded
over a statically-typed record; the `ConfigDyn` view above covers the
dynamic-type checks of `raise_if_invalid`. -/

/-- The mutable attributes of `Configuration` (constructor, lines 22-42),
with the private `__saml_cache` / `__token_cache` fields included. -/
structure Config where
  ask_role : Bool
  duration : Int
  auto_duration : Bool
  login_url : Option String
  profile : String
  region : Option String
  role_arn : Option String
  use_saml_cache : Bool
  saml_cache_field : Option (List Nat)
  token_cache_field : Option TokenRecord
  resolve_aliases : Bool
  print_creds : Bool
  credential_process : Bool
  quiet : Bool
  account : String
  port : Int
deriving DecidableEq, Repr

/-- The defaults set by `Configuration.__init__`
(`duration = self.max_duration = 43200`). -/
def Config.init : Config where
  ask_role := true
  duration := 43200
  auto_duration := false
  login_url := none
  profile := "default"
  region := none
  role_arn := none
  use_saml_cache := true
  saml_cache_field := none
  token_cache_field := none
  resolve_aliases := true
  print_creds := false
  credential_process := false
  quiet := false
  account := ""
  port := 8000

/-- `util.Util.coalesce(a, b)`: `a` unless it is `None`. -/
def coalesce (a b : Option String) : Option String :=
  match a with
  | some x => some x
  | none => b

/-- The config-file critical section of `Configuration.write`
(configuration.py lines 212-224): read the file, add the profile section if
missing, set the five keys, write back. The file state is the section store;
values are stored as their `str()` images, which is what
`RawConfigParser.write` puts on disk. -/
def writeConfigSection (c : Config) (f : IniFile) : IniFile :=
  let p := config_profile c.profile
  let f1 := addSectionIfMissing f p
  let f2 := setOpt f1 p "region" (strOrNone c.region)
  let f3 := setOpt f2 p "asa.ask_role" (boolToString c.ask_role)
  let f4 := setOpt f3 p "asa.duration" (intToString c.duration)
  let f5 := setOpt f4 p "asa.login_url" (strOrNone c.login_url)
  setOpt f5 p "asa.role_arn" (strOrNone c.role_arn)

/-- `parser[s].getboolean(k, None)`: `none` when the key is absent, the
parsed boolean when the value is in the boolean table, `ValueError`
otherwise. -/
def getbooleanOpt (f : IniFile) (s k : String) : Except String (Option Bool) :=
  match getOpt f s k with
  | none => .ok none
  | some v =>
      match parseBool v with
      | some b => .ok (some b)
      | none => .error ("ValueError: Not a boolean: " ++ v)

/-- `parser[s].getint(k, None)`: `none` when the key is absent, the parsed
integer otherwise, `ValueError` on an unparseable value. -/
def getintOpt (f : IniFile) (s k : String) : Except String (Option Int) :=
  match getOpt f s k with
  | none => .ok none
  | some v =>
      match parseInt v with
      | some n => .ok (some n)
      | none => .error ("ValueError: invalid literal for int: " ++ v)

/-- `Configuration.read(profile)` (configuration.py lines 318-364) on the
parsed config file: when the section `config_profile(profile)` exists, set
`self.profile` and coalesce the six read keys over the current values;
otherwise do nothing. `unicode_to_string_if_needed` is the identity on
already-decoded strings and is dropped. -/
def Config.read (c : Config) (profile : String) (f : IniFile) :
    Except String Config :=
  if hasSection f (config_profile profile) then
    match getbooleanOpt f (config_profile profile) "asa.ask_role" with
    | .error e => .error e
    | .ok read_ask_role =>
        match getintOpt f (config_profile profile) "asa.duration" with
        | .error e => .error e
        | .ok read_duration =>
            .ok { c with
              profile := profile
              ask_role := read_ask_role.getD c.ask_role
              duration := read_duration.getD c.duration
              login_url := coalesce (getOpt f (config_profile profile) "asa.login_url") c.login_url
              region := coalesce (getOpt f (config_profile profile) "region") c.region
              role_arn := coalesce (getOpt f (config_profile profile) "asa.role_arn") c.role_arn
              account := (getOpt f (config_profile profile) "account").getD c.account }
  else .ok c

/-- `Configuration.saml_cache_file` (configuration.py lines 71-81): asserts
`login_url` is set, then replaces the token `credentials` in the
credentials-file path. `hashlib.sha1(...).hexdigest()` is the Python
standard library, external to this repository, so the hex-digest function is
a parameter; the path shape and its dependence on nothing but `login_url`
are what the source determines. -/
def saml_cache_file (sha1Hex : String → String)
    (credentials_file : String) (login_url : Option String) :
    Except String String :=
  match login_url with
  | none => .error "Cannot look for smal cache file if no login url"
  | some u =>
      .ok (credentials_file.replace "credentials"
        ("saml_cache_" ++ sha1Hex u ++ ".xml"))

/-! ### The effect trace of `Configuration.write` -/

/-- The observable file/lock events of one `write` call. -/
inductive WEvent where
  | ensure_files
  | acquire_config_lock
  | write_config_file
  | release_config_lock
  | acquire_credentials_lock
  | write_credentials_file
  | release_credentials_lock
deriving DecidableEq, Repr

/-- Which of the paths touched by `ensure_config_files_exist` exist. -/
structure FilesState where
  dir_exists : Bool
  config_file_exists : Bool
  credentials_file_exists : Bool
deriving DecidableEq, Repr

/-- `Configuration.ensure_config_files_exist` (lines 83-89): creates the
parent directory and each missing file, so afterwards everything exists. -/
def ensure_config_files_exist (_st : FilesState) : FilesState :=
  ⟨true, true, true⟩

/-- The control flow of `Configuration.write` (configuration.py lines
201-262) as an effect trace. `profile` is `self.profile`;
`configWriteFails` injects an I/O failure into the body of the config-file
`try` block; `hasCreds` is `amazon_object is not None`. The source releases
the config lock at the top of the `finally` block and only then, still inside
that `finally`, runs the whole credentials critical section; an exception
from the `try` body propagates after the `finally` completes. Result:
(file state, event trace, outcome). -/
def writeRun (profile : Option String) (configWriteFails hasCreds : Bool)
    (st : FilesState) : FilesState × List WEvent × Except String Unit :=
  let st1 := ensure_config_files_exist st
  match profile with
  | none =>
      (st1, [.ensure_files],
        .error "Can not store config/credentials if the AWS_PROFILE is None.")
  | some _ =>
      let configEvs : List WEvent :=
        [.ensure_files, .acquire_config_lock]
        ++ (if configWriteFails then [] else [.write_config_file])
        ++ [.release_config_lock]
      let credsEvs : List WEvent :=
        if hasCreds then
          [.acquire_credentials_lock, .write_credentials_file,
            .release_credentials_lock]
        else []
      (st1, configEvs ++ credsEvs,
        if configWriteFails then .error "config file write failed" else .ok ())

/-- A concrete well-typed dynamic configuration, used to exercise
`raise_if_invalid` on an in-range duration. -/
def exampleDyn : ConfigDyn where
  ask_role := .vbool true
  duration := .vint 3600
  auto_duration := .vbool false
  profile := .vstr "default"
  region := .vstr "eu-west-1"
  login_url := .vstr "https://idp.example.com/sso"
  role_arn := .vnone
  quiet := .vbool false
  account := .vstr ""
  port := .vint 8000

/-- A concrete parsed config file with one profile section, used to exercise
`Config.read`. -/
def exampleIni : IniFile :=
  [("profile work", [("asa.ask_role", "False"), ("asa.duration", "1000")])]

/-! ## Helper lemmas: the decimal value encoding round-trips -/

theorem digitChar_toNat {d : Nat} (h : d < 10) : (digitChar d).toNat = 48 + d := by
  interval_cases d <;> decide

theorem parseDigits_map (ds : List Nat) (h : ∀ x ∈ ds, x < 10) (acc : Nat) :
    parseDigits (ds.map digitChar) acc
      = some (ds.foldl (fun a x => a * 10 + x) acc) := by
  induction ds generalizing acc with
  | nil => rfl
  | cons d rest ih =>
      have hd : d < 10 := h d (by simp)
      have hrest : ∀ x ∈ rest, x < 10 := fun x hx => h x (by simp [hx])
      simp only [List.map_cons, parseDigits, digitChar_toNat hd, List.foldl_cons]
      rw [if_pos (by omega)]
      rw [ih hrest]
      congr 2
      omega

theorem natDigitsRev_lt (n : Nat) : ∀ x ∈ natDigitsRev n, x < 10 := by
  induction n using Nat.strong_induction_on with
  | _ n ih =>
      intro x hx
      rw [natDigitsRev] at hx
      by_cases h0 : n = 0
      · simp [h0] at hx
      · rw [if_neg h0] at hx
        rcases List.mem_cons.mp hx with h | h
        · omega
        · exact ih (n / 10) (Nat.div_lt_self (Nat.pos_of_ne_zero h0) (by decide)) x h

theorem foldl_digits (n : Nat) (acc : Nat) :
    (natDigitsRev n).reverse.foldl (fun a x => a * 10 + x) acc
      = acc * 10 ^ (natDigitsRev n).length + n := by
  induction n using Nat.strong_induction_on generalizing acc with
  | _ n ih =>
      by_cases h0 : n = 0
      · simp [h0, natDigitsRev]
      · rw [natDigitsRev, if_neg h0]
        simp only [List.reverse_cons, List.foldl_append, List.length_cons]
        rw [ih (n / 10) (Nat.div_lt_self (Nat.pos_of_ne_zero h0) (by decide)) acc]
        simp only [List.foldl_cons, List.foldl_nil]
        rw [pow_succ]
        have hdm : n / 10 * 10 + n % 10 = n := by omega
        calc (acc * 10 ^ (natDigitsRev (n / 10)).length + n / 10) * 10 + n % 10
            = acc * (10 ^ (natDigitsRev (n / 10)).length * 10) + (n / 10 * 10 + n % 10) := by
              ring
          _ = acc * (10 ^ (natDigitsRev (n / 10)).length * 10) + n := by rw [hdm]

theorem parseNat_natToString (n : Nat) : parseNat (natToString n).data = some n := by
  by_cases h0 : n = 0
  · subst h0; decide
  · rw [natToString, if_neg h0]
    show parseNat ((natDigitsRev n).reverse.map digitChar) = some n
    rw [parseNat.eq_def]
    split
    · have hne : natDigitsRev n ≠ [] := by
        rw [natDigitsRev, if_neg h0]; simp
      simp_all
    · rw [parseDigits_map _ (fun x hx => natDigitsRev_lt n x (List.mem_reverse.mp hx)) 0]
      rw [foldl_digits]
      simp

theorem natToString_data_digits (m : Nat) :
    ∀ c ∈ (natToString m).data, 48 ≤ c.toNat ∧ c.toNat ≤ 57 := by
  by_cases h0 : m = 0
  · subst h0
    intro c hc
    have h1 : (natToString 0).data = ['0'] := rfl
    rw [h1] at hc
    simp at hc
    subst hc
    decide
  · rw [natToString, if_neg h0]
    intro c hc
    have hm : c ∈ (natDigitsRev m).reverse.map digitChar := hc
    obtain ⟨d, hd, rfl⟩ := List.mem_map.mp hm
    have hlt : d < 10 := natDigitsRev_lt m d (List.mem_reverse.mp hd)
    rw [digitChar_toNat hlt]
    omega

theorem natToString_data_ne_nil (m : Nat) : (natToString m).data ≠ [] := by
  by_cases h0 : m = 0
  · subst h0; decide
  · rw [natToString, if_neg h0]
    have hne : natDigitsRev m ≠ [] := by
      rw [natDigitsRev, if_neg h0]; simp
    simpa using hne

theorem parseInt_intToString (n : Int) : parseInt (intToString n) = some n := by
  by_cases hneg : n < 0
  · have hd : (intToString n).data = '-' :: (natToString n.natAbs).data := by
      rw [intToString, if_pos hneg]
      simp [String.data_append]
    rw [parseInt.eq_def, hd]
    show (match parseNat (natToString n.natAbs).data with
      | some k => some (-(k : Int))
      | none => none) = some n
    rw [parseNat_natToString]
    show some (-(n.natAbs : Int)) = some n
    congr 1
    omega
  · have hd : (intToString n).data = (natToString n.natAbs).data := by
      rw [intToString, if_neg hneg]
    rcases hcs : (natToString n.natAbs).data with _ | ⟨c, cs⟩
    · exact absurd hcs (natToString_data_ne_nil n.natAbs)
    · have hdig : 48 ≤ c.toNat ∧ c.toNat ≤ 57 := by
        refine natToString_data_digits n.natAbs c ?_
        rw [hcs]; simp
      have hc1 : ¬ (c = '-') := by
        intro h; subst h; revert hdig; decide
      have hc2 : ¬ (c = '+') := by
        intro h; subst h; revert hdig; decide
      rw [parseInt.eq_def, hd, hcs]
      simp only [if_neg hc1, if_neg hc2]
      rw [← hcs, parseNat_natToString]
      show some ((n.natAbs : Int)) = some n
      congr 1
      omega

theorem parseBool_boolToString (b : Bool) : parseBool (boolToString b) = some b := by
  cases b <;> decide

/-! ## Helper lemmas: the section store -/

theorem secGet_secSet_same (sec : IniSection) (k v : String) :
    secGet (secSet sec k v) k = some v := by
  induction sec with
  | nil => simp [secSet, secGet]
  | cons hd rest ih =>
      obtain ⟨k₁, v₁⟩ := hd
      by_cases h : k₁ = k
      · simp [secSet, h, secGet]
      · simp [secSet, h, secGet, ih]

theorem secGet_secSet_other (sec : IniSection) {k k' : String} (h : k' ≠ k)
    (v : String) : secGet (secSet sec k v) k' = secGet sec k' := by
  induction sec with
  | nil => simp [secSet, secGet, Ne.symm h]
  | cons hd rest ih =>
      obtain ⟨k₁, v₁⟩ := hd
      by_cases h1 : k₁ = k
      · subst h1
        simp [secSet, secGet, Ne.symm h]
      · simp [secSet, h1, secGet, ih]

theorem hasSection_append_self (f : IniFile) (s : String) (sec : IniSection) :
    hasSection (f ++ [(s, sec)]) s = true := by
  induction f with
  | nil => simp [hasSection]
  | cons hd rest ih =>
      obtain ⟨s₁, sec₁⟩ := hd
      simp [hasSection, ih]

theorem hasSection_addSectionIfMissing (f : IniFile) (s : String) :
    hasSection (addSectionIfMissing f s) s = true := by
  rw [addSectionIfMissing]
  by_cases h : hasSection f s
  · simp [h]
  · simp [h, hasSection_append_self]

theorem hasSection_setOpt (f : IniFile) (s s' k v : String) :
    hasSection (setOpt f s' k v) s = hasSection f s := by
  induction f with
  | nil => rfl
  | cons hd rest ih =>
      obtain ⟨s₁, sec₁⟩ := hd
      by_cases h : s₁ = s'
      · simp [setOpt, h, hasSection]
      · simp [setOpt, h, hasSection, ih]

theorem getOpt_setOpt_same (f : IniFile) (s k v : String)
    (h : hasSection f s = true) :
    getOpt (setOpt f s k v) s k = some v := by
  induction f with
  | nil => simp [hasSection] at h
  | cons hd rest ih =>
      obtain ⟨s₁, sec₁⟩ := hd
      by_cases h1 : s₁ = s
      · subst h1
        simp [setOpt, getOpt, secGet_secSet_same]
      · have h2 : hasSection rest s = true := by
          simp [hasSection, h1] at h
          exact h
        simp [setOpt, h1, getOpt, ih h2]

theorem getOpt_setOpt_ne (f : IniFile) {k k' : String}
    (hk : optionxform k' ≠ optionxform k) (s s' v : String) :
    getOpt (setOpt f s k v) s' k' = getOpt f s' k' := by
  induction f with
  | nil => rfl
  | cons hd rest ih =>
      obtain ⟨s₁, sec₁⟩ := hd
      rw [setOpt]
      by_cases h1 : s₁ = s
      · rw [if_pos h1]
        simp only [getOpt]
        by_cases h2 : s₁ = s'
        · rw [if_pos h2, if_pos h2]
          exact secGet_secSet_other _ hk _
        · rw [if_neg h2, if_neg h2]
      · rw [if_neg h1]
        simp only [getOpt]
        by_cases h2 : s₁ = s'
        · rw [if_pos h2, if_pos h2]
        · rw [if_neg h2, if_neg h2]
          exact ih

/-- Sequencing with a passing tail is the head check. -/
theorem thenCheck_ok_right (r : Except String Unit) :
    thenCheck r (.ok ()) = r := by
  cases r with
  | ok u => cases u; rfl
  | error e => rfl

/-- When the profile's section exists and both typed getters succeed,
`Config.read` produces exactly the coalesced record. -/
theorem read_eq_of_section (c : Config) (profile : String) (f : IniFile)
    (rab : Option Bool) (rd : Option Int)
    (hs : hasSection f (config_profile profile) = true)
    (hb : getbooleanOpt f (config_profile profile) "asa.ask_role" = .ok rab)
    (hi : getintOpt f (config_profile profile) "asa.duration" = .ok rd) :
    Config.read c profile f = .ok { c with
      profile := profile
      ask_role := rab.getD c.ask_role
      duration := rd.getD c.duration
      login_url := coalesce (getOpt f (config_profile profile) "asa.login_url") c.login_url
      region := coalesce (getOpt f (config_profile profile) "region") c.region
      role_arn := coalesce (getOpt f (config_profile profile) "asa.role_arn") c.role_arn
      account := (getOpt f (config_profile profile) "account").getD c.account } := by
  rw [Config.read, if_pos hs, hb, hi]

/-- When the profile's section exists but the boolean getter raises,
`Config.read` propagates the error. -/
theorem read_error_of_getboolean (c : Config) (profile : String) (f : IniFile)
    (e : String)
    (hs : hasSection f (config_profile profile) = true)
    (hb : getbooleanOpt f (config_profile profile) "asa.ask_role" = .error e) :
    Config.read c profile f = .error e := by
  rw [Config.read, if_pos hs, hb]

/-- When the profile's section exists and the integer getter raises,
`Config.read` propagates the error. -/
theorem read_error_of_getint (c : Config) (profile : String) (f : IniFile)
    (rab : Option Bool) (e : String)
    (hs : hasSection f (config_profile profile) = true)
    (hb : getbooleanOpt f (config_profile profile) "asa.ask_role" = .ok rab)
    (hi : getintOpt f (config_profile profile) "asa.duration" = .error e) :
    Config.read c profile f = .error e := by
  rw [Config.read, if_pos hs, hb, hi]

theorem strOrNone_some (s : String) : strOrNone (some s) = s := rfl

/-- After the config-section write, the profile section exists and each of
the five written keys holds the stringified in-memory value. -/
theorem writeConfigSection_spec (c : Config) (f : IniFile) :
    hasSection (writeConfigSection c f) (config_profile c.profile) = true
    ∧ getOpt (writeConfigSection c f) (config_profile c.profile) "region"
        = some (strOrNone c.region)
    ∧ getOpt (writeConfigSection c f) (config_profile c.profile) "asa.ask_role"
        = some (boolToString c.ask_role)
    ∧ getOpt (writeConfigSection c f) (config_profile c.profile) "asa.duration"
        = some (intToString c.duration)
    ∧ getOpt (writeConfigSection c f) (config_profile c.profile) "asa.login_url"
        = some (strOrNone c.login_url)
    ∧ getOpt (writeConfigSection c f) (config_profile c.profile) "asa.role_arn"
        = some (strOrNone c.role_arn) := by
  simp only [writeConfigSection]
  refine ⟨?_, ?_, ?_, ?_, ?_, ?_⟩
  · rw [hasSection_setOpt, hasSection_setOpt, hasSection_setOpt,
      hasSection_setOpt, hasSection_setOpt]
    exact hasSection_addSectionIfMissing f _
  · rw [getOpt_setOpt_ne _ (by decide), getOpt_setOpt_ne _ (by decide),
      getOpt_setOpt_ne _ (by decide), getOpt_setOpt_ne _ (by decide)]
    exact getOpt_setOpt_same _ _ _ _ (hasSection_addSectionIfMissing f _)
  · rw [getOpt_setOpt_ne _ (by decide), getOpt_setOpt_ne _ (by decide),
      getOpt_setOpt_ne _ (by decide)]
    refine getOpt_setOpt_same _ _ _ _ ?_
    rw [hasSection_setOpt]
    exact hasSection_addSectionIfMissing f _
  · rw [getOpt_setOpt_ne _ (by decide), getOpt_setOpt_ne _ (by decide)]
    refine getOpt_setOpt_same _ _ _ _ ?_
    rw [hasSection_setOpt, hasSection_setOpt]
    exact hasSection_addSectionIfMissing f _
  · rw [getOpt_setOpt_ne _ (by decide)]
    refine getOpt_setOpt_same _ _ _ _ ?_
    rw [hasSection_setOpt, hasSection_setOpt, hasSection_setOpt]
    exact hasSection_addSectionIfMissing f _
  · refine getOpt_setOpt_same _ _ _ _ ?_
    rw [hasSection_setOpt, hasSection_setOpt, hasSection_setOpt,
      hasSection_setOpt]
    exact hasSection_addSectionIfMissing f _

/-! ## Claim theorems -/

/-- C3: with all other configuration fields satisfying their invariants,
`raise_if_invalid` succeeds iff the duration is an integer with
`900 <= d <= 43200`; when it fails, the message is that of the first
violated duration assert in the fixed check order. The source body contains
only `assert` statements and no assignment, so the embedding is a pure
check and modifies no field. -/
theorem raise_if_invalid_duration (c : ConfigDyn)
    (h1 : c.ask_role.isBool = true)
    (h2 : c.auto_duration.isBool = true)
    (h3 : c.profile.isStr = true)
    (h4 : c.region.isStr = true)
    (h5 : c.login_url.isNoneV = false)
    (h6 : checkRoleArn c.role_arn = .ok ())
    (h7 : c.quiet.isBool = true)
    (h8 : c.account.isStr = true)
    (h9 : c.port.isInt = true) :
    (raise_if_invalid c = .ok () ↔
      ∃ d : Int, c.duration = .vint d ∧ 900 ≤ d ∧ d ≤ 43200)
    ∧ (c.duration.isInt = false →
        raise_if_invalid c
          = .error ("Expected duration to be an integer. Got "
              ++ c.duration.className ++ "."))
    ∧ (∀ d : Int, c.duration = .vint d → d < 900 →
        raise_if_invalid c
          = .error ("Expected duration to be greater than or equal to 900. Got "
              ++ toString d ++ "."))
    ∧ (∀ d : Int, c.duration = .vint d → 43200 < d →
        raise_if_invalid c
          = .error ("Expected duration to be less than or equal to max_duration (43200). Got "
              ++ toString d ++ ".")) := by
  have key : raise_if_invalid c = checkDuration c.duration := by
    rw [raise_if_invalid]
    simp only [assertCheck, h1, h2, h3, h4, h5, h6, h7, h8, h9, if_true,
      Bool.not_false, thenCheck]
    exact thenCheck_ok_right _
  refine ⟨⟨?_, ?_⟩, ?_, ?_, ?_⟩
  · intro h
    rw [key] at h
    cases hd : c.duration with
    | vint d =>
        rw [hd] at h
        rw [checkDuration] at h
        split_ifs at h with hA hB
        · exact ⟨d, rfl, by omega, by omega⟩
    | vbool b => rw [hd] at h; simp [checkDuration] at h
    | vstr s => rw [hd] at h; simp [checkDuration] at h
    | vnone => rw [hd] at h; simp [checkDuration] at h
  · rintro ⟨d, hd, hge, hle⟩
    rw [key, hd, checkDuration]
    rw [if_neg (by omega), if_neg (by omega)]
  · intro hni
    rw [key]
    cases hd : c.duration with
    | vint d => rw [hd] at hni; simp [PyVal.isInt] at hni
    | vbool b => rfl
    | vstr s => rfl
    | vnone => rfl
  · intro d hd hlt
    rw [key, hd, checkDuration]
    rw [if_pos (by omega)]
  · intro d hd hgt
    rw [key, hd, checkDuration]
    rw [if_neg (by omega), if_pos (by omega)]

/-- C3 witness: a fully valid configuration with duration 3600 passes, and
out-of-range or non-integer durations fail with the named messages. -/
theorem raise_if_invalid_duration_witness :
    raise_if_invalid exampleDyn = .ok () :=
  (raise_if_invalid_duration exampleDyn rfl rfl rfl rfl rfl rfl rfl rfl
      rfl).1.mpr ⟨3600, rfl, by omega, by omega⟩

/-- C1: the `token_cache` read accessor treats the record as invalid
(clears it in memory and returns absent) if the record is absent, or its
`AccessKeyId` is absent, or its `SecretAccessKey` is absent, or its
`Expiration` is absent, or its `Expiration` is less than or equal to the
current time; a record with all fields present and `Expiration` strictly in
the future is returned unchanged. -/
theorem token_cache_validity (now : Int) (t : TokenRecord) :
    token_cache now none = (none, none)
    ∧ (t.AccessKeyId = none → token_cache now (some t) = (none, none))
    ∧ (t.SecretAccessKey = none → token_cache now (some t) = (none, none))
    ∧ (t.Expiration = none → token_cache now (some t) = (none, none))
    ∧ (∀ e, t.Expiration = some e → e ≤ now →
        token_cache now (some t) = (none, none))
    ∧ (∀ e a s, t.Expiration = some e → now < e → t.AccessKeyId = some a →
        t.SecretAccessKey = some s →
        token_cache now (some t) = (some t, some t)) := by
  refine ⟨rfl, ?_, ?_, ?_, ?_, ?_⟩
  · intro h
    rcases hE : t.Expiration with _ | e <;> simp [token_cache, hE, h]
  · intro h
    rcases hE : t.Expiration with _ | e <;> simp [token_cache, hE, h]
  · intro h
    simp [token_cache, h]
  · intro e hE hle
    simp [token_cache, hE, hle]
  · intro e a s hE hlt hA hS
    simp [token_cache, hE, hA, hS]
    omega

/-- C1 witness: a complete record expiring strictly in the future is
returned unchanged. -/
theorem token_cache_validity_witness :
    token_cache 100 (some ⟨some "AKIA", some "SECRET", some "TOK", some 101⟩)
      = (some ⟨some "AKIA", some "SECRET", some "TOK", some 101⟩,
         some ⟨some "AKIA", some "SECRET", some "TOK", some 101⟩) :=
  (token_cache_validity 100
      ⟨some "AKIA", some "SECRET", some "TOK", some 101⟩).2.2.2.2.2
    101 "AKIA" "SECRET" rfl (by decide) rfl rfl

/-- C2: reading the `saml_cache` accessor returns the blob only if the
validity predicate holds; otherwise it clears the in-memory blob and
returns absent, and any subsequent read of the cleared state also returns
absent. -/
theorem saml_cache_validity (contentValid : List Nat → Bool)
    (cache : Option (List Nat)) :
    (is_valid_saml_assertion contentValid cache = true →
      saml_cache contentValid cache = (cache, cache))
    ∧ (is_valid_saml_assertion contentValid cache = false →
      saml_cache contentValid cache = (none, none))
    ∧ saml_cache contentValid none = (none, none) := by
  refine ⟨?_, ?_, ?_⟩
  · intro h
    rw [saml_cache, if_pos h]
  · intro h
    rw [saml_cache, if_neg (by simp [h])]
  · rfl

/-- C2 witness: a blob rejected by the predicate is cleared and absent is
returned. -/
theorem saml_cache_validity_witness :
    saml_cache (fun _ => false) (some [60, 115, 97, 109, 108, 62])
      = (none, none) :=
  (saml_cache_validity (fun _ => false) (some [60, 115, 97, 109, 108, 62])).2.1 rfl

/-- C6: in `write` with a present credential record, the config-file lock is
released before the credentials-file lock is attempted, and a failure while
writing the config section does not prevent the credentials-section write
from being attempted. -/
theorem write_critical_sections_independent (p : String)
    (configWriteFails : Bool) (st : FilesState) :
    ((writeRun (some p) configWriteFails true st).2.1).indexOf
        WEvent.release_config_lock
      < ((writeRun (some p) configWriteFails true st).2.1).indexOf
        WEvent.acquire_credentials_lock
    ∧ WEvent.acquire_credentials_lock ∈ (writeRun (some p) configWriteFails true st).2.1
    ∧ WEvent.write_credentials_file ∈ (writeRun (some p) configWriteFails true st).2.1 := by
  cases configWriteFails <;> simp [writeRun, ensure_config_files_exist]

/-- C7: the SAML cache file path is the credentials-file path with the
literal token `credentials` replaced by `saml_cache_<hex>.xml`, where
`<hex>` is the hex digest of `login_url` (the SHA-1 digest function itself
is the Python standard library, held abstract); with `login_url` absent the
accessor fails with the assertion message. The path is a pure function of
the digest function, the credentials path and the login URL, hence stable
across runs. -/
theorem saml_cache_file_characterization (sha1Hex : String → String)
    (credentials_file : String) (u : String) :
    saml_cache_file sha1Hex credentials_file (some u)
      = .ok (credentials_file.replace "credentials"
          ("saml_cache_" ++ sha1Hex u ++ ".xml"))
    ∧ saml_cache_file sha1Hex credentials_file none
      = .error "Cannot look for smal cache file if no login url" :=
  ⟨rfl, rfl⟩

/-- C8: `config_profile` returns the name unchanged when it
case-insensitively equals "default", and otherwise prefixes it with
"profile "; in particular on "default", "Default" and "work". -/
theorem config_profile_characterization :
    (∀ name : String, pyLower name = "default" → config_profile name = name)
    ∧ (∀ name : String, pyLower name ≠ "default" →
        config_profile name = "profile " ++ name)
    ∧ config_profile "default" = "default"
    ∧ config_profile "Default" = "Default"
    ∧ config_profile "work" = "profile work" := by
  refine ⟨?_, ?_, by decide, by decide, by decide⟩
  · intro name h
    rw [config_profile, if_pos h]
  · intro name h
    rw [config_profile, if_neg h]

/-- C8 witness: a non-default profile name gets the "profile " prefix. -/
theorem config_profile_characterization_witness :
    config_profile "Prod" = "profile Prod" :=
  config_profile_characterization.2.1 "Prod" (by decide)

/-- C9: `write` with `profile = None` fails with the assertion message
before acquiring any lock or writing any section, but only after
`ensure_config_files_exist` has run, so missing files are still created by
the failing call. -/
theorem write_none_profile_precondition (configWriteFails hasCreds : Bool)
    (st : FilesState) :
    (writeRun none configWriteFails hasCreds st).2.2
      = .error "Can not store config/credentials if the AWS_PROFILE is None."
    ∧ (writeRun none configWriteFails hasCreds st).2.1 = [WEvent.ensure_files]
    ∧ WEvent.acquire_config_lock ∉ (writeRun none configWriteFails hasCreds st).2.1
    ∧ WEvent.write_config_file ∉ (writeRun none configWriteFails hasCreds st).2.1
    ∧ WEvent.acquire_credentials_lock ∉ (writeRun none configWriteFails hasCreds st).2.1
    ∧ WEvent.write_credentials_file ∉ (writeRun none configWriteFails hasCreds st).2.1
    ∧ (writeRun none configWriteFails hasCreds st).1
        = ⟨true, true, true⟩ := by
  refine ⟨rfl, rfl, ?_, ?_, ?_, ?_, rfl⟩ <;> simp [writeRun]

/-- C5: when the profile's config section exists, `read` sets the in-memory
profile to the requested name and overwrites each of `ask_role`, `duration`,
`login_url`, `region`, `role_arn`, `account` with the on-disk value only
when that key is present, leaving the in-memory value untouched when the key
is absent; the credential cache fields are never modified. -/
theorem read_overlay (c : Config) (profile : String) (f : IniFile) (c' : Config)
    (hs : hasSection f (config_profile profile) = true)
    (h : Config.read c profile f = .ok c') :
    c'.profile = profile
    ∧ (getOpt f (config_profile profile) "asa.ask_role" = none →
        c'.ask_role = c.ask_role)
    ∧ (∀ v b, getOpt f (config_profile profile) "asa.ask_role" = some v →
        parseBool v = some b → c'.ask_role = b)
    ∧ (getOpt f (config_profile profile) "asa.duration" = none →
        c'.duration = c.duration)
    ∧ (∀ v n, getOpt f (config_profile profile) "asa.duration" = some v →
        parseInt v = some n → c'.duration = n)
    ∧ (getOpt f (config_profile profile) "asa.login_url" = none →
        c'.login_url = c.login_url)
    ∧ (∀ v, getOpt f (config_profile profile) "asa.login_url" = some v →
        c'.login_url = some v)
    ∧ (getOpt f (config_profile profile) "region" = none →
        c'.region = c.region)
    ∧ (∀ v, getOpt f (config_profile profile) "region" = some v →
        c'.region = some v)
    ∧ (getOpt f (config_profile profile) "asa.role_arn" = none →
        c'.role_arn = c.role_arn)
    ∧ (∀ v, getOpt f (config_profile profile) "asa.role_arn" = some v →
        c'.role_arn = some v)
    ∧ (getOpt f (config_profile profile) "account" = none →
        c'.account = c.account)
    ∧ (∀ v, getOpt f (config_profile profile) "account" = some v →
        c'.account = v)
    ∧ c'.saml_cache_field = c.saml_cache_field
    ∧ c'.token_cache_field = c.token_cache_field := by
  rcases hb : getbooleanOpt f (config_profile profile) "asa.ask_role" with e | rab
  · rw [read_error_of_getboolean c profile f e hs hb] at h
    exact absurd h (by simp)
  rcases hi : getintOpt f (config_profile profile) "asa.duration" with e | rd
  · rw [read_error_of_getint c profile f rab e hs hb hi] at h
    exact absurd h (by simp)
  rw [read_eq_of_section c profile f rab rd hs hb hi] at h
  injection h with h'
  subst h'
  refine ⟨rfl, ?_, ?_, ?_, ?_, ?_, ?_, ?_, ?_, ?_, ?_, ?_, ?_, rfl, rfl⟩
  · intro hk
    simp only [getbooleanOpt, hk, Except.ok.injEq] at hb
    rw [← hb]
    rfl
  · intro v b hk hp
    simp only [getbooleanOpt, hk, hp, Except.ok.injEq] at hb
    rw [← hb]
    rfl
  · intro hk
    simp only [getintOpt, hk, Except.ok.injEq] at hi
    rw [← hi]
    rfl
  · intro v n hk hp
    simp only [getintOpt, hk, hp, Except.ok.injEq] at hi
    rw [← hi]
    rfl
  · intro hk
    show coalesce (getOpt f (config_profile profile) "asa.login_url") c.login_url
      = c.login_url
    rw [hk]
    rfl
  · intro v hk
    show coalesce (getOpt f (config_profile profile) "asa.login_url") c.login_url
      = some v
    rw [hk]
    rfl
  · intro hk
    show coalesce (getOpt f (config_profile profile) "region") c.region = c.region
    rw [hk]
    rfl
  · intro v hk
    show coalesce (getOpt f (config_profile profile) "region") c.region = some v
    rw [hk]
    rfl
  · intro hk
    show coalesce (getOpt f (config_profile profile) "asa.role_arn") c.role_arn
      = c.role_arn
    rw [hk]
    rfl
  · intro v hk
    show coalesce (getOpt f (config_profile profile) "asa.role_arn") c.role_arn
      = some v
    rw [hk]
    rfl
  · intro hk
    show (getOpt f (config_profile profile) "account").getD c.account = c.account
    rw [hk]
    rfl
  · intro v hk
    show (getOpt f (config_profile profile) "account").getD c.account = v
    rw [hk]
    rfl

/-- C5 witness: reading the "work" section of the example file overwrites
`duration` with the parsed on-disk value. -/
theorem read_overlay_witness :
    ({ Config.init with
        profile := "work"
        ask_role := false
        duration := 1000 } : Config).duration = (1000 : Int) :=
  (read_overlay Config.init "work" exampleIni
      { Config.init with
        profile := "work"
        ask_role := false
        duration := 1000 }
      (by decide) (by rfl)).2.2.2.2.1 "1000" 1000 (by decide) (by decide)

/-- C4: writing a configuration whose config fields (`region`, `ask_role`,
`duration`, `login_url`, `role_arn`) are all set and then reading the same
profile back on a fresh Configuration reproduces every written field
exactly, through the on-disk string encoding. -/
theorem write_read_roundtrip (cfg fresh : Config) (p reg lu ra : String)
    (ar : Bool) (d : Int) (f : IniFile)
    (hp : cfg.profile = p) (hreg : cfg.region = some reg)
    (har : cfg.ask_role = ar) (hd : cfg.duration = d)
    (hlu : cfg.login_url = some lu) (hra : cfg.role_arn = some ra) :
    ∃ c' : Config,
      Config.read fresh p (writeConfigSection cfg f) = .ok c'
      ∧ c'.region = some reg ∧ c'.ask_role = ar ∧ c'.duration = d
      ∧ c'.login_url = some lu ∧ c'.role_arn = some ra := by
  obtain ⟨hs, gReg, gAsk, gDur, gLu, gRa⟩ := writeConfigSection_spec cfg f
  rw [hp] at hs gReg gAsk gDur gLu gRa
  rw [hreg, strOrNone_some] at gReg
  rw [har] at gAsk
  rw [hd] at gDur
  rw [hlu, strOrNone_some] at gLu
  rw [hra, strOrNone_some] at gRa
  have hb : getbooleanOpt (writeConfigSection cfg f) (config_profile p)
      "asa.ask_role" = .ok (some ar) := by
    simp only [getbooleanOpt, gAsk, parseBool_boolToString]
  have hi : getintOpt (writeConfigSection cfg f) (config_profile p)
      "asa.duration" = .ok (some d) := by
    simp only [getintOpt, gDur, parseInt_intToString]
  refine ⟨_, read_eq_of_section fresh p (writeConfigSection cfg f)
    (some ar) (some d) hs hb hi, ?_, rfl, rfl, ?_, ?_⟩
  · show coalesce (getOpt (writeConfigSection cfg f) (config_profile p) "region")
      fresh.region = some reg
    rw [gReg]
    rfl
  · show coalesce (getOpt (writeConfigSection cfg f) (config_profile p)
      "asa.login_url") fresh.login_url = some lu
    rw [gLu]
    rfl
  · show coalesce (getOpt (writeConfigSection cfg f) (config_profile p)
      "asa.role_arn") fresh.role_arn = some ra
    rw [gRa]
    rfl

/-- C4 witness: a concrete write-then-read round-trip on an empty file
reproduces every written field. -/
theorem write_read_roundtrip_witness :
    ∃ c' : Config,
      Config.read Config.init "work"
        (writeConfigSection
          { Config.init with
            profile := "work"
            region := some "eu-west-1"
            ask_role := false
            duration := 3600
            login_url := some "https://idp.example.com/sso"
            role_arn := some "arn:aws:iam::123456789012:role/dev" } [])
        = .ok c'
      ∧ c'.region = some "eu-west-1" ∧ c'.ask_role = false
      ∧ c'.duration = 3600
      ∧ c'.login_url = some "https://idp.example.com/sso"
      ∧ c'.role_arn = some "arn:aws:iam::123456789012:role/dev" :=
  write_read_roundtrip
    { Config.init with
      profile := "work"
      region := some "eu-west-1"
      ask_role := false
      duration := 3600
      login_url := some "https://idp.example.com/sso"
      role_arn := some "arn:aws:iam::123456789012:role/dev" }
    Config.init "work" "eu-west-1" "https://idp.example.com/sso"
    "arn:aws:iam::123456789012:role/dev" false 3600 []
    rfl rfl rfl rfl rfl rfl

/-- C10: when the section `config_profile(profile)` is missing from the
config file, `read(profile)` leaves the whole in-memory configuration
unchanged, including the `profile` field. -/
theorem read_no_section_frame (c : Config) (profile : String) (f : IniFile)
    (h : hasSection f (config_profile profile) = false) :
    Config.read c profile f = .ok c := by
  simp [Config.read, h]

/-- C10 witness: reading a profile from an empty config file changes
nothing. -/
theorem read_no_section_frame_witness :
    Config.read Config.init "work" [] = .ok Config.init :=
  read_no_section_frame Config.init "work" [] rfl

end ASA
